import Mathlib

/-!
Shallow embedding of the Kerong BT lock driver (src/bt-lock.js) and proofs
about its packet codec, BCD codec, XOR cipher, user-record parsing,
fragment reassembly and session state machine.

JS numbers are modelled as Nat (all values in scope are nonnegative
integers); Uint8Array element coercion is an explicit mod 256; JS strings
are Lean String; thrown JS errors are explicit JsError values.
-/

namespace BtLock

/-- Hex digit character, as produced by JS Number.prototype.toString(16)
(digits 0-9 then lowercase a-f). -/
def hexChar (n : Nat) : Char :=
  if n < 10 then Char.ofNat (48 + n) else Char.ofNat (87 + n)

/-- Digits of n in base 16, most significant first: models
Number.prototype.toString(16) for a nonnegative integer. -/
def toHexDigits (n : Nat) : List Char :=
  if _h : n < 16 then [hexChar n]
  else toHexDigits (n / 16) ++ [hexChar (n % 16)]
termination_by n
decreasing_by
  have h16 : 16 ≤ n := Nat.le_of_not_lt _h
  exact Nat.div_lt_self (Nat.lt_of_lt_of_le (by norm_num) h16) (by norm_num)

/-- Models Number.prototype.toString(16) returning a string. -/
def jsHexString (n : Nat) : String :=
  String.mk (toHexDigits n)

/-- Models String.prototype.padStart(len, c) on a list of characters. -/
def padStartChars (len : Nat) (c : Char) (l : List Char) : List Char :=
  List.replicate (len - l.length) c ++ l

/-- createPacket from bt-lock.js: frame is
STX CMD ASK(0x00) DATALEN ETX SUM DATA, SUM the low byte of the sum of the
five header bytes plus all data bytes; the Uint8Array constructor coerces
every element mod 256. -/
def createPacket (cmd : Nat) (data : List Nat) : List Nat :=
  let packet := [0xF5, cmd, 0x00, data.length, 0x5F]
  let sum := packet.sum + data.sum
  ((packet ++ [sum % 256]) ++ data).map (fun b => b % 256)

/-- encryptData from bt-lock.js: XOR each byte with the key, mod 256. -/
def encryptData (plainData : List Nat) (key : Nat) : List Nat :=
  plainData.map (fun b => (b ^^^ key) % 256)

/-- decToBcd from bt-lock.js: tens nibble shifted left, units nibble,
masked with 0xFF. -/
def decToBcd (dec : Nat) : Nat :=
  (((dec / 10) <<< 4) ||| (dec % 10)) % 256

/-- bcdToDec from bt-lock.js: unpack the two nibbles. -/
def bcdToDec (byte : Nat) : Nat :=
  ((byte >>> 4) &&& 0x0F) * 10 + (byte &&& 0x0F)

/-- JS Date value as used by dateToBcd (getMonth is 0-based, mirrored by
the month0 field). -/
structure JsDate where
  year : Nat
  month0 : Nat
  day : Nat
  hour : Nat
  minute : Nat
deriving Repr, DecidableEq

/-- dateToBcd from bt-lock.js: year mod 100, month0+1, day, hour, minute,
each packed as BCD. -/
def dateToBcd (date : JsDate) : List Nat :=
  [decToBcd (date.year % 100), decToBcd (date.month0 + 1),
   decToBcd date.day, decToBcd date.hour, decToBcd date.minute]

/-- Value of one hex digit as consumed by JS parseInt with radix 16;
none models a character that is not a hex digit. -/
def hexDigitVal (c : Char) : Option Nat :=
  if 48 ≤ c.toNat ∧ c.toNat ≤ 57 then some (c.toNat - 48)
  else if 97 ≤ c.toNat ∧ c.toNat ≤ 102 then some (c.toNat - 87)
  else if 65 ≤ c.toNat ∧ c.toNat ≤ 70 then some (c.toNat - 55)
  else none

/-- Models parseInt(two-character-string, 16). JS parses the longest valid
prefix; a single valid leading digit yields that digit's value. When the
first character is not a hex digit JS returns NaN; that case is
represented as 0 here and never arises for the decimal-digit phone
strings in scope. -/
def parseIntHex2 (c1 c2 : Char) : Nat :=
  match hexDigitVal c1, hexDigitVal c2 with
  | some v1, some v2 => 16 * v1 + v2
  | some v1, none => v1
  | none, _ => 0

/-- parsePhoneNumber from bt-lock.js: pad the decimal string to 12 with
leading zeros, then read six 2-character substrings with parseInt(_, 16). -/
def parsePhoneNumber (phone : String) : List Nat :=
  let padded := padStartChars 12 '0' phone.data
  [parseIntHex2 (padded.getD 0 '0') (padded.getD 1 '0'),
   parseIntHex2 (padded.getD 2 '0') (padded.getD 3 '0'),
   parseIntHex2 (padded.getD 4 '0') (padded.getD 5 '0'),
   parseIntHex2 (padded.getD 6 '0') (padded.getD 7 '0'),
   parseIntHex2 (padded.getD 8 '0') (padded.getD 9 '0'),
   parseIntHex2 (padded.getD 10 '0') (padded.getD 11 '0')]

/-- parseUserId from bt-lock.js: each byte rendered as 2-character hex
(padStart(2, '0')), joined, with the leading run of '0' characters
removed (replace of leading zeros with the empty string). -/
def parseUserId (bytes : List Nat) : String :=
  String.mk
    (((bytes.map (fun b => padStartChars 2 '0' (toHexDigits b))).flatten).dropWhile
      (fun c => c == '0'))

/-- parsePassword from bt-lock.js: String.fromCharCode over the bytes
(char codes taken mod 2^16 like JS ToUint16) with every NUL removed. -/
def parsePassword (bytes : List Nat) : String :=
  String.mk ((bytes.map (fun b => Char.ofNat (b % 65536))).filter
    (fun c => c ≠ Char.ofNat 0))

/-- Decimal rendering padded to two characters, as in the template string
of parseDateTime (toString().padStart(2, '0')). -/
def pad2Dec (n : Nat) : String :=
  String.mk (padStartChars 2 '0' (Nat.repr n).data)

/-- parseDateTime from bt-lock.js: decode five BCD bytes, validate ranges,
and render either the formatted timestamp or the invalid-date marker
embedding the raw bytes in hex (the JS try/catch made explicit). -/
def parseDateTime (bytes : List Nat) : String :=
  let year := bcdToDec (bytes.getD 0 0) + 2000
  let month := bcdToDec (bytes.getD 1 0)
  let day := bcdToDec (bytes.getD 2 0)
  let hour := bcdToDec (bytes.getD 3 0)
  let minute := bcdToDec (bytes.getD 4 0)
  if month < 1 ∨ month > 12 ∨ day < 1 ∨ day > 31 ∨ hour > 23 ∨ minute > 59 then
    "Invalid date/time (" ++ String.intercalate ":" (bytes.map jsHexString) ++ ")"
  else
    Nat.repr year ++ "-" ++ pad2Dec month ++ "-" ++ pad2Dec day ++ " " ++
      pad2Dec hour ++ ":" ++ pad2Dec minute

/-- getType from bt-lock.js: lookup table over the user/code type byte
with a fallback embedding the raw byte. -/
def getType (byte : Nat) : String :=
  if byte = 0x02 then "Periodic user"
  else if byte = 0x03 then "Once code/user"
  else if byte = 0x82 then "Expired periodic code"
  else if byte = 0x83 then "Expired once code"
  else "Onbekend (0x" ++ jsHexString byte ++ ")"

/-- One parsed 24-byte user record, as built by parseUserData. -/
structure UserRec where
  valid : Bool
  type : String
  userId : String
  password : String
  validFrom : String
  validTo : String
  raw : List Nat
deriving Repr, DecidableEq

/-- One iteration body of the parseUserData loop on a full 24-byte chunk. -/
def parseUserRecord (chunk : List Nat) : UserRec :=
  { valid := decide (chunk.getD 23 0 = (chunk.take 23).sum % 256)
    type := getType (chunk.getD 0 0)
    userId := parseUserId ((chunk.drop 1).take 6)
    password := parsePassword ((chunk.drop 7).take 6)
    validFrom := parseDateTime ((chunk.drop 13).take 5)
    validTo := parseDateTime ((chunk.drop 18).take 5)
    raw := chunk }

/-- parseUserData from bt-lock.js: split the buffer into consecutive
24-byte records, stopping at a short trailing remainder. -/
def parseUserData (dataBuffer : List Nat) : List UserRec :=
  if _h : dataBuffer.length < 24 then []
  else parseUserRecord (dataBuffer.take 24) :: parseUserData (dataBuffer.drop 24)
termination_by dataBuffer.length
decreasing_by
  simp only [List.length_drop]
  omega

/-- The CONFIG object fields read by the driver. The battery bounds feed
only the floating-point percentage computation, which no claim touches. -/
structure Config where
  pairingPassword : String := ""
  adminPhone : String := ""
  adminPassword : String := ""
  batteryMinMv : Option Nat := none
  batteryMaxMv : Option Nat := none
deriving Repr, DecidableEq, Inhabited

/-- The module-level mutable state of bt-lock.js. bluetoothDevice is
modelled as an optional connected flag (gatt.connected).
pendingCreateUserPassword is the Map declared on line 35 of the source;
note every use site in the source instead names the undeclared
pendingCreateUserPasswords, so this Map stays empty. -/
structure SessionState where
  bluetoothDevice : Option Bool := none
  writeCharacteristic : Option Unit := none
  notifyCharacteristic : Option Unit := none
  randomCode : Option Nat := none
  userDataBuffer : List Nat := []
  isAuthenticated : Bool := false
  pendingBatteryResolve : Bool := false
  pendingCreateUserPassword : List (Nat × Bool) := []
  latestPasswords : List (Nat × String) := []
  config : Config := {}
deriving Repr, DecidableEq, Inhabited

/-- Observable side effects of the driver: bytes written to the transport,
resolutions of pending promises, and the forced disconnect. The
batteryResolved effect carries the decoded voltage; the resolved JS object
also carries a floating-point percentage, outside this model's scope. -/
inductive Effect where
  | wrote (packet : List Nat)
  | batteryResolved (voltage : Nat)
  | usersParsed (users : List UserRec)
  | passwordResolved (userId : Nat) (password : String)
  | disconnected
deriving Repr, DecidableEq

/-- Thrown JS errors, as far as the claims need them: Error(msg),
ReferenceError for an undeclared identifier, and the transport write
failure rethrown after the retries of writeWithRetry are exhausted. -/
inductive JsError where
  | error (msg : String)
  | referenceError (name : String)
  | transport
deriving Repr, DecidableEq

/-- Result of one run of the notification event handler: the state after
the handler, the effects it produced, and the error it threw, if any. -/
structure HandleResult where
  state : SessionState
  effects : List Effect
  err : Option JsError
deriving Repr, DecidableEq

/-- handleNotifications from bt-lock.js, switching on the command byte.
Out-of-range Uint8Array reads yield JS undefined, which compares unequal
to every case label and coerces to 0 in arithmetic; getD 0 mirrors that.
The 0x68 branch computes the password string and then reads the
undeclared identifier pendingCreateUserPasswords (the declaration on line
35 is the singular pendingCreateUserPassword), which raises a
ReferenceError before any entry can be matched or resolved. -/
def handleNotifications (s : SessionState) (response : List Nat) : HandleResult :=
  let cmd := response.getD 1 0
  let status := response.getD 2 0
  let dataLength := response.getD 3 0
  if cmd = 0x0F then
    if status = 0x10 then ⟨s, [.wrote (createPacket 0x20 [])], none⟩
    else ⟨s, [], none⟩
  else if cmd = 0x20 then
    if status = 0x10 then
      let rc := response.getD (response.length - 1) 0
      let adminData := 0x01 :: (parsePhoneNumber s.config.adminPhone ++
        s.config.adminPassword.data.map Char.toNat)
      ⟨{s with randomCode := some rc},
        [.wrote (createPacket 0x21 (encryptData adminData rc))], none⟩
    else ⟨s, [], none⟩
  else if cmd = 0x21 then
    ⟨{s with isAuthenticated := decide (status = 0x10)}, [], none⟩
  else if cmd = 0x60 then
    if status = 0x10 then
      let voltage := ((response.getD 8 0) <<< 8) ||| response.getD 9 0
      if s.pendingBatteryResolve then
        ⟨{s with pendingBatteryResolve := false}, [.batteryResolved voltage], none⟩
      else ⟨s, [], none⟩
    else ⟨s, [], none⟩
  else if cmd = 0x6C then
    if status = 0x24 then
      ⟨{s with userDataBuffer := s.userDataBuffer ++ (response.drop 6).take dataLength},
        [], none⟩
    else if status = 0x10 then
      let full := s.userDataBuffer ++ (response.drop 6).take dataLength
      ⟨{s with userDataBuffer := []}, [.usersParsed (parseUserData full)], none⟩
    else ⟨s, [], none⟩
  else if cmd = 0x68 then
    if status = 0x10 then
      let _password := parsePassword ((response.drop 6).take 6)
      ⟨s, [], some (.referenceError "pendingCreateUserPasswords")⟩
    else ⟨s, [], none⟩
  else ⟨s, [], none⟩

/-- Dispatch a list of notifications in arrival order, collecting effects
and thrown errors; an error in one handler run does not stop the next
(each run is a separate event dispatch). -/
def runNotifications (s : SessionState) (rs : List (List Nat)) :
    SessionState × List Effect × List JsError :=
  match rs with
  | [] => (s, [], [])
  | r :: rest =>
    let h := handleNotifications s r
    let k := runNotifications h.state rest
    (k.1, h.effects ++ k.2.1, (match h.err with | some e => [e] | none => []) ++ k.2.2)

/-- A device response frame with the wire layout the handler reads:
STX CMD STATUS DATALEN ETX SUM DATA. -/
def mkResponse (cmd status : Nat) (payload : List Nat) : List Nat :=
  let hdr := [0xF5, cmd, status, payload.length, 0x5F]
  (hdr ++ [(hdr.sum + payload.sum) % 256]) ++ payload

/-- createUser from bt-lock.js. After the authentication guard it builds
the user data, then evaluates pendingCreateUserPasswords.set — a read of
an undeclared identifier (the declared Map is pendingCreateUserPassword),
raising a ReferenceError before writeWithRetry runs, so nothing is
written and no pending entry is recorded. -/
def createUser (s : SessionState) (userId : Nat) (startDate endDate : JsDate)
    (once : Bool) : Option JsError × SessionState × List Effect :=
  if !s.isAuthenticated then (some (.error "Please authenticate first."), s, [])
  else
    let type := if once then 0x03 else 0x02
    let _userData := type :: (parsePhoneNumber (Nat.repr userId) ++
      (dateToBcd startDate ++ dateToBcd endDate))
    (some (.referenceError "pendingCreateUserPasswords"), s, [])

/-- deleteAllUsers from bt-lock.js: authentication guard, then one framed
0x6B write; writeOk abstracts whether writeWithRetry eventually succeeds
(false means all retries failed and the last error is rethrown). -/
def deleteAllUsers (s : SessionState) (writeOk : Bool) :
    Option JsError × SessionState × List Effect :=
  if !s.isAuthenticated then (some (.error "Please authenticate first."), s, [])
  else if writeOk then (none, s, [.wrote (createPacket 0x6B [])])
  else (some .transport, s, [])

/-- The battery request deadline installed by getBatteryLevel, in
milliseconds. -/
def batteryTimeoutMs : Nat := 5000

/-- Immediate outcome of getBatteryLevel: rejected because a request is
already running, rejected because the write failed, or left waiting for
the 0x60 notification. -/
inductive BatteryOutcome where
  | alreadyRunning
  | writeFailed
  | waitingForResponse
deriving Repr, DecidableEq

/-- getBatteryLevel from bt-lock.js up to its first suspension: the
single-flight rejection, installing the pending resolver and the timeout,
and the 0x60 write (writeOk abstracts writeWithRetry; on failure the
pending slot is nulled and the error rethrown). -/
def getBatteryLevel (s : SessionState) (writeOk : Bool) :
    BatteryOutcome × SessionState × List Effect :=
  if s.pendingBatteryResolve then (.alreadyRunning, s, [])
  else if writeOk then
    (.waitingForResponse, {s with pendingBatteryResolve := true},
      [.wrote (createPacket 0x60 [])])
  else (.writeFailed, {s with pendingBatteryResolve := false}, [])

/-- The getBatteryLevel timeout callback firing after batteryTimeoutMs
with no 0x60 response: it nulls the pending slot and rejects the promise
with the timeout error. -/
def batteryTimeoutFire (s : SessionState) : SessionState × JsError :=
  ({s with pendingBatteryResolve := false}, .error "Timeout after 5 seconds")

/-- systemExit from bt-lock.js: write the 0x6F frame (writeOk abstracts
writeWithRetry), wait 500 ms, force a disconnect when still connected,
then null bluetoothDevice and writeCharacteristic and clear
isAuthenticated; when the write fails the catch block rethrows and no
state is touched. -/
def systemExit (s : SessionState) (writeOk : Bool) :
    Option JsError × SessionState × List Effect :=
  if writeOk then
    (none,
      {s with
        bluetoothDevice := none
        writeCharacteristic := none
        isAuthenticated := false},
      .wrote (createPacket 0x6F []) ::
        (if s.bluetoothDevice = some true then [.disconnected] else []))
  else (some .transport, s, [])

/-! Helper lemmas shared by the claim proofs. -/

/-- Byte lists are fixed by the Uint8Array coercion. -/
theorem mapMod_eq_self {l : List Nat} (h : ∀ b ∈ l, b < 256) :
    l.map (fun b => b % 256) = l := by
  induction l with
  | nil => rfl
  | cons a t ih =>
    have ha := h a (List.mem_cons_self a t)
    have ht : ∀ b ∈ t, b < 256 := fun b hb => h b (List.mem_cons_of_mem a hb)
    simp [Nat.mod_eq_of_lt ha, ih ht]

/-! Claim theorems. -/

/-- C9: decToBcd hits the documented sample values and bcdToDec inverts
decToBcd on every n in 0..99. -/
theorem decToBcd_bcdToDec_roundtrip :
    decToBcd 0 = 0x00 ∧ decToBcd 9 = 0x09 ∧ decToBcd 23 = 0x23 ∧
      decToBcd 59 = 0x59 ∧ ∀ n, n < 100 → bcdToDec (decToBcd n) = n := by
  refine ⟨rfl, rfl, rfl, rfl, ?_⟩
  decide

/-- C9 witness: the round trip evaluated at 42. -/
theorem decToBcd_bcdToDec_roundtrip_witness : bcdToDec (decToBcd 42) = 42 :=
  decToBcd_bcdToDec_roundtrip.2.2.2.2 42 (by decide)

/-- C8: XOR transform with the same key twice is the identity, on a
single byte and element-wise on every byte list. -/
theorem encryptData_involution (key : Nat) (hk : key < 256) :
    (∀ b : Nat, b < 256 → encryptData (encryptData [b] key) key = [b]) ∧
      ∀ l : List Nat, (∀ b ∈ l, b < 256) →
        encryptData (encryptData l key) key = l := by
  have elt : ∀ b : Nat, b < 256 → ((b ^^^ key) % 256 ^^^ key) % 256 = b := by
    intro b hb
    have hxor : b ^^^ key < 256 := by
      have : b ^^^ key < 2 ^ 8 := Nat.xor_lt_two_pow (by simpa using hb) (by simpa using hk)
      simpa using this
    rw [Nat.mod_eq_of_lt hxor, Nat.xor_cancel_right]
    exact Nat.mod_eq_of_lt hb
  have hlist : ∀ l : List Nat, (∀ b ∈ l, b < 256) →
      encryptData (encryptData l key) key = l := by
    intro l hl
    induction l with
    | nil => rfl
    | cons a t ih =>
      have ha := hl a (List.mem_cons_self a t)
      have ht : ∀ b ∈ t, b < 256 := fun b hb => hl b (List.mem_cons_of_mem a hb)
      simpa [encryptData, elt a ha] using ih ht
  exact ⟨fun b hb => hlist [b] (by simpa using hb), hlist⟩

/-- C8 witness: the involution evaluated at byte 0xA7 with key 0x3C and
at a concrete list. -/
theorem encryptData_involution_witness :
    encryptData (encryptData [0xA7] 0x3C) 0x3C = [0xA7] ∧
      encryptData (encryptData [1, 2, 250] 0x3C) 0x3C = [1, 2, 250] :=
  ⟨(encryptData_involution 0x3C (by decide)).1 0xA7 (by decide),
    (encryptData_involution 0x3C (by decide)).2 [1, 2, 250] (by decide)⟩

set_option maxRecDepth 8192 in
/-- C1 counterexample: for a 256-byte data list the DATALEN byte wraps
mod 256, so decoding does not recover the data length (the claim
quantifies over every list of data bytes). -/
theorem createPacket_decode_overflow :
    (createPacket 0x60 (List.replicate 256 0)).getD 3 0 ≠
      (List.replicate 256 (0 : Nat)).length := by
  decide

/-- C1 amended: for every command byte and every list of at most 255 data
bytes, reading byte 1 as cmd, byte 2 as status, byte 3 as dataLength and
bytes 6 onward as payload recovers cmd, status 0x00, the data length and
the data unchanged, and the checksum byte at index 5 is the low byte of
the sum of the five header bytes plus all data bytes. -/
theorem createPacket_decode (cmd : Nat) (data : List Nat) (hc : cmd < 256)
    (hd : ∀ b ∈ data, b < 256) (hl : data.length ≤ 255) :
    (createPacket cmd data).getD 1 0 = cmd ∧
      (createPacket cmd data).getD 2 0 = 0x00 ∧
      (createPacket cmd data).getD 3 0 = data.length ∧
      ((createPacket cmd data).drop 6).take ((createPacket cmd data).getD 3 0) = data ∧
      (createPacket cmd data).getD 5 0 =
        ([0xF5, cmd, 0x00, data.length, 0x5F].sum + data.sum) % 256 := by
  have hmap : data.map (fun b => b % 256) = data := mapMod_eq_self hd
  have hcm : cmd % 256 = cmd := Nat.mod_eq_of_lt hc
  have hlm : data.length % 256 = data.length := Nat.mod_eq_of_lt (by omega)
  have hexp : createPacket cmd data =
      0xF5 :: cmd :: 0x00 :: data.length :: 0x5F ::
        (([0xF5, cmd, 0x00, data.length, 0x5F].sum + data.sum) % 256) :: data := by
    unfold createPacket
    simp [hmap, hcm, hlm]
  rw [hexp]
  refine ⟨rfl, rfl, rfl, ?_, ?_⟩
  · simp [List.getD]
  · simp [List.getD]

/-- A session that has completed admin authentication, with the fields a
live session carries. -/
def sessionExample : SessionState :=
  { bluetoothDevice := some true
    writeCharacteristic := some ()
    notifyCharacteristic := some ()
    randomCode := some 0x7A
    isAuthenticated := true
    pendingBatteryResolve := true }

/-- C7: while not authenticated, createUser and deleteAllUsers fail with
the not-authenticated error and write no bytes. -/
theorem not_authenticated_guard (s : SessionState) (userId : Nat)
    (startDate endDate : JsDate) (once writeOk : Bool)
    (h : s.isAuthenticated = false) :
    createUser s userId startDate endDate once =
      (some (.error "Please authenticate first."), s, []) ∧
      deleteAllUsers s writeOk =
        (some (.error "Please authenticate first."), s, []) := by
  constructor
  · simp [createUser, h]
  · simp [deleteAllUsers, h]

/-- C7 witness: the guards evaluated on the fresh session. -/
theorem not_authenticated_guard_witness :
    createUser {} 1000 ⟨2025, 0, 1, 0, 0⟩ ⟨2026, 0, 1, 0, 0⟩ false =
      (some (.error "Please authenticate first."), ({} : SessionState), []) ∧
      deleteAllUsers {} true =
        (some (.error "Please authenticate first."), ({} : SessionState), []) :=
  not_authenticated_guard {} 1000 ⟨2025, 0, 1, 0, 0⟩ ⟨2026, 0, 1, 0, 0⟩
    false true rfl

/-- C3 counterexample: when the shutdown write fails systemExit rethrows
and resets nothing (authenticated stays true), and even when it succeeds
the random code, the notify characteristic and the pending battery slot
all survive, so the session is not reset to empty. -/
theorem systemExit_not_full_reset :
    (systemExit sessionExample false).2.1.isAuthenticated = true ∧
      (systemExit sessionExample true).2.1.randomCode = some 0x7A ∧
      (systemExit sessionExample true).2.1.notifyCharacteristic = some () ∧
      (systemExit sessionExample true).2.1.pendingBatteryResolve = true := by
  refine ⟨rfl, rfl, rfl, rfl⟩

/-- C3 amended: when the shutdown write succeeds systemExit clears the
device handle and the write characteristic and sets authenticated to
false, leaving the random code, the notify characteristic, the fragment
buffer and the pending battery slot untouched; when the shutdown write
fails after its retries systemExit rethrows the error and changes
nothing. -/
theorem systemExit_resets (s : SessionState) (writeOk : Bool) :
    (writeOk = true →
      (systemExit s writeOk).1 = none ∧
        (systemExit s writeOk).2.1.bluetoothDevice = none ∧
        (systemExit s writeOk).2.1.writeCharacteristic = none ∧
        (systemExit s writeOk).2.1.isAuthenticated = false ∧
        (systemExit s writeOk).2.1.randomCode = s.randomCode ∧
        (systemExit s writeOk).2.1.notifyCharacteristic = s.notifyCharacteristic ∧
        (systemExit s writeOk).2.1.userDataBuffer = s.userDataBuffer ∧
        (systemExit s writeOk).2.1.pendingBatteryResolve = s.pendingBatteryResolve) ∧
      (writeOk = false → systemExit s writeOk = (some .transport, s, [])) := by
  constructor
  · intro h
    subst h
    simp [systemExit]
  · intro h
    subst h
    simp [systemExit]

/-- C3 amended witness: the success path evaluated on the live session. -/
theorem systemExit_resets_witness :
    (systemExit sessionExample true).1 = none ∧
      (systemExit sessionExample true).2.1.isAuthenticated = false :=
  ⟨((systemExit_resets sessionExample true).1 rfl).1,
    ((systemExit_resets sessionExample true).1 rfl).2.2.2.1⟩

/-- C2 (code bug): in the source every use site of the pending
user-creation Map names the undeclared identifier
pendingCreateUserPasswords (the declaration is the singular
pendingCreateUserPassword), so createUser raises a ReferenceError before
writing anything, and a 0x68 status 0x10 notification carrying the
password AAAAAA raises the same ReferenceError instead of resolving any
request: the claimed call-order matching can never happen. -/
theorem createUser_passwordMatching_referenceError :
    createUser sessionExample 1000 ⟨2025, 0, 1, 0, 0⟩ ⟨2026, 0, 1, 0, 0⟩ true =
      (some (.referenceError "pendingCreateUserPasswords"), sessionExample, []) ∧
      handleNotifications sessionExample
          (mkResponse 0x68 0x10 [65, 65, 65, 65, 65, 65]) =
        ⟨sessionExample, [], some (.referenceError "pendingCreateUserPasswords")⟩ := by
  constructor
  · rfl
  · rfl

/-- C6: a second battery request while one is pending is rejected at
once; the 5000 ms timeout clears the pending slot and rejects with the
timeout error; and once the slot is empty a stray 0x60 notification
changes nothing, resolves nothing and raises no error. -/
theorem getBatteryLevel_single_flight_timeout :
    batteryTimeoutMs = 5000 ∧
      (∀ (s : SessionState) (writeOk : Bool), s.pendingBatteryResolve = true →
        getBatteryLevel s writeOk = (.alreadyRunning, s, [])) ∧
      (∀ s : SessionState,
        (batteryTimeoutFire s).1.pendingBatteryResolve = false ∧
          (batteryTimeoutFire s).2 = .error "Timeout after 5 seconds") ∧
      ∀ (s : SessionState) (response : List Nat),
        s.pendingBatteryResolve = false → response.getD 1 0 = 0x60 →
        handleNotifications s response = ⟨s, [], none⟩ := by
  refine ⟨rfl, ?_, ?_, ?_⟩
  · intro s writeOk h
    simp [getBatteryLevel, h]
  · intro s
    exact ⟨rfl, rfl⟩
  · intro s response hp hcmd
    have hcmd' : response[1]?.getD 0 = 0x60 := by
      simpa [List.getD_eq_getElem?_getD] using hcmd
    unfold handleNotifications
    simp [hcmd', hp]

/-- C6 witness: the single-flight rejection on the live session and a
stray 0x60 notification on the fresh session. -/
theorem getBatteryLevel_single_flight_timeout_witness :
    getBatteryLevel sessionExample true = (.alreadyRunning, sessionExample, []) ∧
      handleNotifications {} (mkResponse 0x60 0x10 [0, 0, 0x10, 0x27]) =
        ⟨{}, [], none⟩ :=
  ⟨getBatteryLevel_single_flight_timeout.2.1 sessionExample true rfl,
    getBatteryLevel_single_flight_timeout.2.2.2 {}
      (mkResponse 0x60 0x10 [0, 0, 0x10, 0x27]) rfl (by decide)⟩

/-- A partial (status 0x24) user-list fragment appends its payload to
the fragment buffer. -/
theorem handle_userList_partial (s : SessionState) (payload : List Nat) :
    handleNotifications s (mkResponse 0x6C 0x24 payload) =
      ⟨{s with userDataBuffer := s.userDataBuffer ++ payload}, [], none⟩ := by
  unfold handleNotifications mkResponse
  simp [List.getD_eq_getElem?_getD, List.take_length]

/-- A final (status 0x10) user-list fragment appends its payload, parses
the whole buffer and clears it. -/
theorem handle_userList_final (s : SessionState) (payload : List Nat) :
    handleNotifications s (mkResponse 0x6C 0x10 payload) =
      ⟨{s with userDataBuffer := []},
        [.usersParsed (parseUserData (s.userDataBuffer ++ payload))], none⟩ := by
  unfold handleNotifications mkResponse
  simp [List.getD_eq_getElem?_getD, List.take_length]

/-- Splitting a 48-byte buffer yields exactly the two 24-byte records. -/
theorem parseUserData_two (p1 p2 : List Nat) (h1 : p1.length = 24)
    (h2 : p2.length = 24) :
    parseUserData (p1 ++ p2) = [parseUserRecord p1, parseUserRecord p2] := by
  rw [parseUserData]
  rw [dif_neg (by simp [h1, h2])]
  have ht : (p1 ++ p2).take 24 = p1 := by
    rw [← h1]
    exact List.take_left p1 p2
  have hd : (p1 ++ p2).drop 24 = p2 := by
    rw [← h1]
    exact List.drop_left p1 p2
  rw [ht, hd, parseUserData, dif_neg (by simp [h2])]
  have ht2 : p2.take 24 = p2 := by
    rw [← h2]
    exact List.take_length p2
  have hd2 : p2.drop 24 = [] := by
    rw [← h2]
    exact List.drop_length p2
  rw [ht2, hd2, parseUserData]
  simp

/-- C5: one partial fragment of 24 bytes followed by one final fragment
of 24 bytes produces exactly 2 user records parsed from the concatenated
48 bytes, the fragment buffer is empty afterward, and the final fragment
is processed without any error. -/
theorem fragment_reassembly (s : SessionState) (p1 p2 : List Nat)
    (h1 : p1.length = 24) (h2 : p2.length = 24)
    (hb : s.userDataBuffer = []) :
    (runNotifications s
        [mkResponse 0x6C 0x24 p1, mkResponse 0x6C 0x10 p2]).1.userDataBuffer = [] ∧
      (runNotifications s
          [mkResponse 0x6C 0x24 p1, mkResponse 0x6C 0x10 p2]).2.1 =
        [.usersParsed [parseUserRecord p1, parseUserRecord p2]] ∧
      (parseUserData (p1 ++ p2)).length = 2 ∧
      (runNotifications s
          [mkResponse 0x6C 0x24 p1, mkResponse 0x6C 0x10 p2]).2.2 = [] := by
  have hrun : runNotifications s
      [mkResponse 0x6C 0x24 p1, mkResponse 0x6C 0x10 p2] =
      ({s with userDataBuffer := []},
        [.usersParsed [parseUserRecord p1, parseUserRecord p2]], []) := by
    simp only [runNotifications, handle_userList_partial, handle_userList_final]
    simp [hb, parseUserData_two p1 p2 h1 h2]
  rw [hrun]
  refine ⟨rfl, rfl, ?_, rfl⟩
  rw [parseUserData_two p1 p2 h1 h2]
  rfl

/-- C5 witness: the scenario evaluated on two concrete 24-byte payloads. -/
theorem fragment_reassembly_witness :
    (runNotifications {}
        [mkResponse 0x6C 0x24 (List.replicate 24 0),
          mkResponse 0x6C 0x10 (List.replicate 24 1)]).1.userDataBuffer = [] ∧
      (runNotifications {}
          [mkResponse 0x6C 0x24 (List.replicate 24 0),
            mkResponse 0x6C 0x10 (List.replicate 24 1)]).2.1 =
        [.usersParsed [parseUserRecord (List.replicate 24 0),
          parseUserRecord (List.replicate 24 1)]] ∧
      (parseUserData (List.replicate 24 0 ++ List.replicate 24 1)).length = 2 ∧
      (runNotifications {}
          [mkResponse 0x6C 0x24 (List.replicate 24 0),
            mkResponse 0x6C 0x10 (List.replicate 24 1)]).2.2 = [] :=
  fragment_reassembly {} (List.replicate 24 0) (List.replicate 24 1)
    (by decide) (by decide) rfl

/-- Setting one entry moves a list sum by the difference of new and old
entry. -/
theorem sum_set_add_getD (l : List Nat) (i v : Nat) (h : i < l.length) :
    (l.set i v).sum + l.getD i 0 = l.sum + v := by
  induction l generalizing i with
  | nil => simp at h
  | cons a t ih =>
    cases i with
    | zero => simp [List.getD]; omega
    | succ n =>
      have hn : n < t.length := by simpa using h
      have := ih n hn
      simp only [List.set_cons_succ, List.sum_cons, List.getD_cons_succ]
      omega

/-- getD inside the taken prefix agrees with getD on the whole list. -/
theorem getD_take_of_lt (l : List Nat) {i n : Nat} (h : i < n) (d : Nat) :
    (l.take n).getD i d = l.getD i d := by
  simp [List.getD_eq_getElem?_getD, List.getElem?_take, h]

/-- getD at an index other than the set one is unchanged. -/
theorem getD_set_ne (l : List Nat) {i j : Nat} (h : i ≠ j) (v d : Nat) :
    (l.set i v).getD j d = l.getD j d := by
  simp [List.getD_eq_getElem?_getD, List.getElem?_set_ne h]

/-- getD at the set index, in bounds, returns the new value. -/
theorem getD_set_self (l : List Nat) {i : Nat} (h : i < l.length) (v d : Nat) :
    (l.set i v).getD i d = v := by
  simp [List.getD_eq_getElem?_getD, List.getElem?_set_self h]

/-- A buffer of exactly 24 bytes parses to a single record. -/
theorem parseUserData_single (chunk : List Nat) (h : chunk.length = 24) :
    parseUserData chunk = [parseUserRecord chunk] := by
  rw [parseUserData, dif_neg (by omega)]
  have ht : chunk.take 24 = chunk := by
    rw [← h]
    exact List.take_length chunk
  have hd : chunk.drop 24 = [] := by
    rw [← h]
    exact List.drop_length chunk
  rw [ht, hd, parseUserData]
  simp

/-- C4: a 24-byte record whose trailing byte satisfies the checksum
equation parses with valid = true, and changing exactly one byte to a
different byte value, without updating anything else, flips valid to
false. -/
theorem parseUserData_checksum (chunk : List Nat) (hlen : chunk.length = 24)
    (hbytes : ∀ b ∈ chunk, b < 256)
    (hck : chunk.getD 23 0 = (chunk.take 23).sum % 256) :
    (parseUserData chunk).map (fun u => u.valid) = [true] ∧
      ∀ i v, i < 24 → v < 256 → v ≠ chunk.getD i 0 →
        (parseUserData (chunk.set i v)).map (fun u => u.valid) = [false] := by
  constructor
  · rw [parseUserData_single chunk hlen]
    simp only [List.map_cons, List.map_nil, parseUserRecord]
    rw [hck]
    simp
  · intro i v hi hv hne
    have hlen' : (chunk.set i v).length = 24 := by simp [hlen]
    have hchunk_i : chunk.getD i 0 < 256 := by
      have hmem : chunk.getD i 0 ∈ chunk := by
        rw [List.getD_eq_getElem chunk 0 (by omega)]
        exact List.getElem_mem (by omega)
      exact hbytes _ hmem
    have key : ¬ ((chunk.set i v).getD 23 0 =
        ((chunk.set i v).take 23).sum % 256) := by
      rcases Nat.lt_or_ge i 23 with hlt | hge
      · -- a data byte changed: the recomputed low byte moves, the stored
        -- checksum byte does not
        have htake : (chunk.set i v).take 23 = (chunk.take 23).set i v :=
          List.set_take
        have hg23 : (chunk.set i v).getD 23 0 = chunk.getD 23 0 :=
          getD_set_ne chunk (by omega) v 0
        have hiT : i < (chunk.take 23).length := by
          simp [hlen]
          omega
        have hsum : ((chunk.take 23).set i v).sum + (chunk.take 23).getD i 0 =
            (chunk.take 23).sum + v := sum_set_add_getD (chunk.take 23) i v hiT
        have hTi : (chunk.take 23).getD i 0 = chunk.getD i 0 :=
          getD_take_of_lt chunk hlt 0
        intro heq
        rw [hg23, htake, hck] at heq
        -- heq : (chunk.take 23).sum % 256 = ((chunk.take 23).set i v).sum % 256
        have hmods : ((chunk.take 23).set i v).sum ≡ (chunk.take 23).sum
            [MOD 256] := heq.symm
        have hstep : ((chunk.take 23).set i v).sum + (chunk.take 23).getD i 0 ≡
            (chunk.take 23).sum + (chunk.take 23).getD i 0 [MOD 256] :=
          hmods.add_right _
        rw [hsum] at hstep
        have hcancel : v ≡ (chunk.take 23).getD i 0 [MOD 256] :=
          Nat.ModEq.add_left_cancel' (chunk.take 23).sum hstep
        have : v = chunk.getD i 0 := by
          have hvv : v % 256 = (chunk.take 23).getD i 0 % 256 := hcancel
          rw [hTi] at hvv
          rwa [Nat.mod_eq_of_lt hv, Nat.mod_eq_of_lt hchunk_i] at hvv
        exact hne this
      · -- the checksum byte itself changed: the recomputed low byte is
        -- unchanged, the stored checksum byte differs from it
        have hi23 : i = 23 := by omega
        subst hi23
        have htake : (chunk.set 23 v).take 23 = chunk.take 23 := by
          rw [List.set_take]
          exact List.set_eq_of_length_le (by simp [hlen])
        have hg : (chunk.set 23 v).getD 23 0 = v :=
          getD_set_self chunk (by omega) v 0
        intro heq
        rw [hg, htake] at heq
        exact hne (heq.trans hck.symm)
    rw [parseUserData_single _ hlen']
    simp only [List.map_cons, List.map_nil, parseUserRecord]
    rw [decide_eq_false key]

/-- C4 witness: the all-zero record is valid and flipping byte 5 to 7
invalidates it. -/
theorem parseUserData_checksum_witness :
    (parseUserData (List.replicate 24 0)).map (fun u => u.valid) = [true] ∧
      (parseUserData ((List.replicate 24 0).set 5 7)).map
        (fun u => u.valid) = [false] :=
  ⟨(parseUserData_checksum (List.replicate 24 0) (by decide) (by decide)
      (by decide)).1,
    (parseUserData_checksum (List.replicate 24 0) (by decide) (by decide)
      (by decide)).2 5 7 (by decide) (by decide) (by decide)⟩

/-- Decimal digit characters have char codes 48 through 57. -/
theorem char_digit_bounds (c : Char) (h : c.isDigit) :
    48 ≤ c.toNat ∧ c.toNat ≤ 57 := by
  simp [Char.isDigit] at h
  obtain ⟨hl, hr⟩ := h
  exact ⟨hl, hr⟩

/-- hexDigitVal on a decimal digit character. -/
theorem hexDigitVal_digit (c : Char) (h48 : 48 ≤ c.toNat) (h57 : c.toNat ≤ 57) :
    hexDigitVal c = some (c.toNat - 48) := by
  unfold hexDigitVal
  rw [if_pos ⟨h48, h57⟩]

/-- hexChar inverts the digit value of a decimal digit character. -/
theorem hexChar_digit (c : Char) (h48 : 48 ≤ c.toNat) (h57 : c.toNat ≤ 57) :
    hexChar (c.toNat - 48) = c := by
  unfold hexChar
  rw [if_pos (by omega)]
  have h : 48 + (c.toNat - 48) = c.toNat := by omega
  rw [h, Char.ofNat_toNat]

/-- Rendering the byte parsed from two decimal digit characters as
2-character padded hex recovers exactly those two characters. -/
theorem pair_roundtrip (a b : Char) (ha : a.isDigit) (hb : b.isDigit) :
    padStartChars 2 '0' (toHexDigits (parseIntHex2 a b)) = [a, b] := by
  obtain ⟨ha48, ha57⟩ := char_digit_bounds a ha
  obtain ⟨hb48, hb57⟩ := char_digit_bounds b hb
  have hpi : parseIntHex2 a b = 16 * (a.toNat - 48) + (b.toNat - 48) := by
    unfold parseIntHex2
    rw [hexDigitVal_digit a ha48 ha57, hexDigitVal_digit b hb48 hb57]
  rw [hpi]
  rcases Nat.eq_zero_or_pos (a.toNat - 48) with hz | hpos
  · rw [hz]
    simp only [Nat.mul_zero, Nat.zero_add]
    rw [toHexDigits, dif_pos (by omega)]
    rw [hexChar_digit b hb48 hb57]
    have ha0 : a = '0' := by
      have he : a.toNat = 48 := by omega
      calc a = Char.ofNat a.toNat := (Char.ofNat_toNat a).symm
        _ = Char.ofNat 48 := by rw [he]
        _ = '0' := rfl
    rw [ha0]
    rfl
  · rw [toHexDigits, dif_neg (by omega)]
    have hdiv : (16 * (a.toNat - 48) + (b.toNat - 48)) / 16 = a.toNat - 48 := by
      rw [Nat.mul_add_div (by norm_num)]
      rw [Nat.div_eq_of_lt (by omega : b.toNat - 48 < 16)]
      omega
    have hmod : (16 * (a.toNat - 48) + (b.toNat - 48)) % 16 = b.toNat - 48 := by
      rw [Nat.mul_add_mod]
      exact Nat.mod_eq_of_lt (by omega)
    rw [hdiv, hmod]
    rw [toHexDigits, dif_pos (by omega)]
    rw [hexChar_digit a ha48 ha57, hexChar_digit b hb48 hb57]
    rfl

/-- Dropping the leading '0' run skips a replicated '0' block. -/
theorem dropWhile_zero_replicate (k : Nat) (l : List Char) :
    (List.replicate k '0' ++ l).dropWhile (fun c => c == '0') =
      l.dropWhile (fun c => c == '0') := by
  induction k with
  | zero => rfl
  | succ n ih =>
    rw [List.replicate_succ, List.cons_append,
      List.dropWhile_cons_of_pos (by rfl)]
    exact ih

/-- A list of length 12 is an explicit 12-tuple of its elements. -/
theorem exists_twelve (l : List Char) (h : l.length = 12) :
    ∃ c0 c1 c2 c3 c4 c5 c6 c7 c8 c9 c10 c11,
      l = [c0, c1, c2, c3, c4, c5, c6, c7, c8, c9, c10, c11] := by
  obtain ⟨c0, t0, rfl⟩ := List.exists_of_length_succ l h
  have h0 : t0.length = 11 := by simpa using h
  obtain ⟨c1, t1, rfl⟩ := List.exists_of_length_succ t0 h0
  have hh1 : t1.length = 10 := by simpa using h0
  obtain ⟨c2, t2, rfl⟩ := List.exists_of_length_succ t1 hh1
  have hh2 : t2.length = 9 := by simpa using hh1
  obtain ⟨c3, t3, rfl⟩ := List.exists_of_length_succ t2 hh2
  have hh3 : t3.length = 8 := by simpa using hh2
  obtain ⟨c4, t4, rfl⟩ := List.exists_of_length_succ t3 hh3
  have hh4 : t4.length = 7 := by simpa using hh3
  obtain ⟨c5, t5, rfl⟩ := List.exists_of_length_succ t4 hh4
  have hh5 : t5.length = 6 := by simpa using hh4
  obtain ⟨c6, t6, rfl⟩ := List.exists_of_length_succ t5 hh5
  have hh6 : t6.length = 5 := by simpa using hh5
  obtain ⟨c7, t7, rfl⟩ := List.exists_of_length_succ t6 hh6
  have hh7 : t7.length = 4 := by simpa using hh6
  obtain ⟨c8, t8, rfl⟩ := List.exists_of_length_succ t7 hh7
  have hh8 : t8.length = 3 := by simpa using hh7
  obtain ⟨c9, t9, rfl⟩ := List.exists_of_length_succ t8 hh8
  have hh9 : t9.length = 2 := by simpa using hh8
  obtain ⟨c10, t10, rfl⟩ := List.exists_of_length_succ t9 hh9
  have hh10 : t10.length = 1 := by simpa using hh9
  obtain ⟨c11, t11, rfl⟩ := List.exists_of_length_succ t10 hh10
  have hh11 : t11.length = 0 := by simpa using hh10
  have ht : t11 = [] := List.length_eq_zero.mp hh11
  subst ht
  exact ⟨c0, c1, c2, c3, c4, c5, c6, c7, c8, c9, c10, c11, rfl⟩

/-- C10: for a string of 1 to 12 decimal digits, decoding the encoded
user id recovers the string with its leading zeros removed (an all-zero
string yields the empty string). -/
theorem parseUserId_parsePhoneNumber_roundtrip (s : String)
    (h1 : 1 ≤ s.length) (h2 : s.length ≤ 12) (hd : ∀ c ∈ s.data, c.isDigit) :
    parseUserId (parsePhoneNumber s) =
      String.mk (s.data.dropWhile (fun c => c == '0')) := by
  have hn : s.data.length ≤ 12 := h2
  have hplen : (padStartChars 12 '0' s.data).length = 12 := by
    simp [padStartChars]
    omega
  have hpdig : ∀ c ∈ padStartChars 12 '0' s.data, c.isDigit := by
    intro c hc
    unfold padStartChars at hc
    rcases List.mem_append.mp hc with hrep | hmem
    · rw [List.eq_of_mem_replicate hrep]
      decide
    · exact hd c hmem
  obtain ⟨c0, c1, c2, c3, c4, c5, c6, c7, c8, c9, c10, c11, hpe⟩ :=
    exists_twelve _ hplen
  have hd0 : c0.isDigit := hpdig c0 (by rw [hpe]; simp)
  have hd1 : c1.isDigit := hpdig c1 (by rw [hpe]; simp)
  have hd2 : c2.isDigit := hpdig c2 (by rw [hpe]; simp)
  have hd3 : c3.isDigit := hpdig c3 (by rw [hpe]; simp)
  have hd4 : c4.isDigit := hpdig c4 (by rw [hpe]; simp)
  have hd5 : c5.isDigit := hpdig c5 (by rw [hpe]; simp)
  have hd6 : c6.isDigit := hpdig c6 (by rw [hpe]; simp)
  have hd7 : c7.isDigit := hpdig c7 (by rw [hpe]; simp)
  have hd8 : c8.isDigit := hpdig c8 (by rw [hpe]; simp)
  have hd9 : c9.isDigit := hpdig c9 (by rw [hpe]; simp)
  have hd10 : c10.isDigit := hpdig c10 (by rw [hpe]; simp)
  have hd11 : c11.isDigit := hpdig c11 (by rw [hpe]; simp)
  have hpp : parsePhoneNumber s =
      [parseIntHex2 c0 c1, parseIntHex2 c2 c3, parseIntHex2 c4 c5,
        parseIntHex2 c6 c7, parseIntHex2 c8 c9, parseIntHex2 c10 c11] := by
    simp only [parsePhoneNumber]
    rw [hpe]
    simp [List.getD]
  rw [hpp]
  unfold parseUserId
  simp only [List.map_cons, List.map_nil,
    pair_roundtrip c0 c1 hd0 hd1, pair_roundtrip c2 c3 hd2 hd3,
    pair_roundtrip c4 c5 hd4 hd5, pair_roundtrip c6 c7 hd6 hd7,
    pair_roundtrip c8 c9 hd8 hd9, pair_roundtrip c10 c11 hd10 hd11,
    List.flatten_cons, List.flatten_nil, List.cons_append, List.nil_append,
    List.append_nil]
  rw [← hpe]
  unfold padStartChars
  rw [dropWhile_zero_replicate]

/-- C10 witness: the round trip evaluated on the id 15814015470 and on an
id with leading zeros. -/
theorem parseUserId_parsePhoneNumber_roundtrip_witness :
    parseUserId (parsePhoneNumber "15814015470") =
      String.mk ("15814015470".data.dropWhile (fun c => c == '0')) ∧
      parseUserId (parsePhoneNumber "0078") =
        String.mk ("0078".data.dropWhile (fun c => c == '0')) :=
  ⟨parseUserId_parsePhoneNumber_roundtrip "15814015470" (by decide) (by decide)
      (by decide),
    parseUserId_parsePhoneNumber_roundtrip "0078" (by decide) (by decide)
      (by decide)⟩

/-- C1 witness: the amended round trip evaluated at cmd 0x68 with a
three-byte payload. -/
theorem createPacket_decode_witness :
    (createPacket 0x68 [1, 2, 3]).getD 1 0 = 0x68 ∧
      (createPacket 0x68 [1, 2, 3]).getD 2 0 = 0x00 ∧
      (createPacket 0x68 [1, 2, 3]).getD 3 0 = [1, 2, 3].length ∧
      ((createPacket 0x68 [1, 2, 3]).drop 6).take
        ((createPacket 0x68 [1, 2, 3]).getD 3 0) = [1, 2, 3] ∧
      (createPacket 0x68 [1, 2, 3]).getD 5 0 =
        ([0xF5, 0x68, 0x00, ([1, 2, 3] : List Nat).length, 0x5F].sum +
          ([1, 2, 3] : List Nat).sum) % 256 :=
  createPacket_decode 0x68 [1, 2, 3] (by decide) (by decide) (by decide)

end BtLock
